import Mathlib

/-!
Verification of the FullCourseGen backend (src/main.py).

This file gives a shallow embedding of the pure / deterministic logic of the
service and proves or refutes the specified properties about it:

* `predict_user_level` — the rule-based quiz-score classifier (main.py 251-257).
* `clean_model_reply` — the regex fence-stripper
  `re.sub(r"^fence-json|fence$", "", text, flags=re.MULTILINE).strip()` used by
  every structured-output endpoint (main.py 124, 154, 210, 236, 311, 368);
  the regex is simulated character by character with MULTILINE anchors.
* `strip_markers` — the startswith/endswith slicing variant used by
  `recommend_course` and `detect_domain_from_file` (main.py 451-458, 507-514).
* `fetch_youtube_video` — the video lookup (main.py 80-96); the network
  transport is an explicit outcome parameter, everything after it is the
  source's branching.
* `generate_course` / `generate_question` — the two course orchestrators
  (main.py 284-339, 341-396); the per-unit model pipelines are oracle
  parameters (success value or failure), the skeleton is the parsed
  structure-generation reply.  `asyncio.gather(..., return_exceptions=True)`
  returns one result per task in task order, which is embedded as `List.map`.
* `get_unit_details_with_mcqs` — the MCQ-variant unit pipeline (main.py
  220-249), with the two model-reply parse outcomes as oracle parameters.
* `detect_domain_from_file` — the document endpoint (main.py 469-529),
  with download status, library text extraction and the JSON parse of the
  model reply as oracle parameters.  The handler's own
  `except Exception: raise HTTPException(500, str(e))` also catches the
  `HTTPException(400, ...)` values raised inside the `try` block (FastAPI's
  `HTTPException` subclasses `Exception`), so every failure reaches the
  client as a 500; this wrapping is embedded faithfully.
-/

namespace FullCourseGen

/-! ## Skill-level classifier (main.py 251-257)

Python floats are embedded as rationals; the comparisons `>=`, `<=`, `<`
against the integer constants 7, 4, 80 and the literal 80.0001 are exact in
both semantics, so the order embedding is faithful for these claims. -/

inductive UserLevel
  | Beginner
  | Intermediate
  | Advanced
deriving DecidableEq

def predict_user_level (score time_taken : ℚ) : UserLevel :=
  if 7 ≤ score ∧ time_taken ≤ 80 then UserLevel.Advanced
  else if 4 ≤ score ∧ score < 7 then UserLevel.Intermediate
  else UserLevel.Beginner

/-! ## Text-repair utility, regex variant (main.py 124 etc.)

`re.sub(r"^ fence json | fence $", "", text, flags=re.MULTILINE)` scans left
to right: at a line start it first tries to remove a literal three-backtick
fence followed by `json`; at any position it removes a bare fence that sits
at the end of a line; every other character is kept.  After a removal the
scan resumes right after the removed text (whose last character is never a
newline, so the next position is never a line start).  The result is then
`str.strip()`-ed.  The recursion consumes at least one character per step,
so fuel `length` suffices and the fuel-0 branch is never reached. -/

def isPySpace (c : Char) : Bool :=
  c == ' ' || c == '\t' || c == '\n' || c == '\r' || c == '\x0b' || c == '\x0c'

def stripChars (l : List Char) : List Char :=
  ((l.dropWhile isPySpace).reverse.dropWhile isPySpace).reverse

def pyStrip (s : String) : String :=
  String.mk (stripChars s.data)

def fenceJson : List Char := "```json".toList

def fenceMark : List Char := "```".toList

def lineEnd : List Char → Bool
  | [] => true
  | c :: _ => c == '\n'

def fenceSubAux : Nat → Bool → List Char → List Char
  | 0, _, l => l
  | _ + 1, _, [] => []
  | fuel + 1, atStart, c :: cs =>
    if atStart && fenceJson.isPrefixOf (c :: cs) then
      fenceSubAux fuel false (List.drop 7 (c :: cs))
    else if fenceMark.isPrefixOf (c :: cs) && lineEnd (List.drop 3 (c :: cs)) then
      fenceSubAux fuel false (List.drop 3 (c :: cs))
    else
      c :: fenceSubAux fuel (c == '\n') cs

def clean_model_reply (s : String) : String :=
  pyStrip (String.mk (fenceSubAux s.data.length true s.data))

def tripleQuote : List Char := "\x27\x27\x27".toList

/-- Python `s[:-n]` on characters. -/
def dropRightChars (l : List Char) (n : Nat) : List Char :=
  l.take (l.length - n)

/-- Slicing variant (main.py 451-458 and 507-514): the four `if` statements
reassign the string in sequence, so each test sees the previous result.
Python slices by character, embedded on the character list. -/
def strip_markers (s : String) : String :=
  let t1 := if fenceJson.isPrefixOf s.data then s.data.drop 7 else s.data
  let t2 := if fenceMark.isSuffixOf t1 then dropRightChars t1 3 else t1
  let t3 := if tripleQuote.isPrefixOf t2 then t2.drop 3 else t2
  String.mk (if tripleQuote.isSuffixOf t3 then dropRightChars t3 3 else t3)

/-- The spec's example input (a fenced JSON object) and its expected payload. -/
def jsonFenceExample : String := "```json\n\x7b\"a\":1\x7d\n```"

def jsonPayload : String := "\x7b\"a\":1\x7d"

/-! ## Video lookup (main.py 80-96)

The transport outcome is explicit: `success ids` is a 2xx reply whose JSON
carries the video ids of `data["items"]` (an absent `items` key or an empty
list are both the empty list — both take the `return "No relevant video
found."` path); `timeout` is `requests.exceptions.Timeout`; `failure` is any
other exception (non-2xx from `raise_for_status`, JSON decode error,
malformed item shape), all caught by the final `except Exception`. -/

inductive Transport
  | success (videoIds : List String)
  | timeout
  | failure

def fetch_youtube_video (query : String) : Transport → String
  | Transport.success [] => "No relevant video found."
  | Transport.success (vid :: _) => "https://www.youtube.com/watch?v=" ++ vid
  | Transport.timeout => "YouTube fetch timeout."
  | Transport.failure => "Error fetching video."

/-! ## Course orchestrators (main.py 284-339 and 341-396)

The parsed course skeleton (`json.loads` of the cleaned structure reply) is
embedded as a record with the top-level fields the prompt requests; `units`
is the only field whose element type changes when stubs are replaced by
detailed units, so the record is parameterised by it.  The per-unit model
pipeline (`get_unit_details` resp. `get_unit_details_with_mcqs`) is an
oracle parameter giving each stub's outcome.

In `generate_course` the loop appends each successful unit in order and
`continue`s on any exception, which is `List.filterMap`.  In
`generate_question`, `asyncio.gather(*tasks, return_exceptions=True)`
returns one outcome per task, in task order, with exceptions as values
(`List.map pipeline`), and the comprehension keeps the non-exception ones.
In both, the `HTTPException(500, "Failed to generate any unit details")`
raised when no unit survives is caught by the handler's own blanket
`except Exception` and re-raised as `HTTPException(500, str(e))`, where
`str` of a FastAPI `HTTPException` is `"{status}: {detail}"` — status 500
either way; the client-visible value is embedded. -/

structure HTTPExc where
  status : Nat
  detail : String
deriving DecidableEq

structure UnitStub where
  unitTitle : String
  unitDescription : String
deriving DecidableEq

structure Course (α : Type) where
  courseTitle : String
  difficultyLevel : String
  description : String
  prerequisites : List String
  learningOutcomes : List String
  units : List α
  overview : String
  assessmentMethods : List String

def courseFailure : HTTPExc :=
  ⟨500, "500: Failed to generate any unit details"⟩

def generate_course {β : Type} (s : Course UnitStub)
    (pipeline : UnitStub → Option β) : Except HTTPExc (Course β) :=
  if (s.units.filterMap pipeline).isEmpty then Except.error courseFailure
  else
    Except.ok ⟨s.courseTitle, s.difficultyLevel, s.description, s.prerequisites,
      s.learningOutcomes, s.units.filterMap pipeline, s.overview,
      s.assessmentMethods⟩

def generate_question {ε β : Type} (s : Course UnitStub)
    (pipeline : UnitStub → Except ε β) : Except HTTPExc (Course β) :=
  if ((s.units.map pipeline).filterMap Except.toOption).isEmpty then
    Except.error courseFailure
  else
    Except.ok ⟨s.courseTitle, s.difficultyLevel, s.description, s.prerequisites,
      s.learningOutcomes, (s.units.map pipeline).filterMap Except.toOption,
      s.overview, s.assessmentMethods⟩

/-! Concrete sample data used by the witnesses. -/

def stubA : UnitStub := ⟨"Unit A", "intro"⟩

def stubB : UnitStub := ⟨"Unit B", "middle"⟩

def stubC : UnitStub := ⟨"Unit C", "wrap-up"⟩

def skeleton3 : Course UnitStub :=
  ⟨"Algebra Course", "easy", "desc", ["arithmetic"], ["solve equations"],
    [stubA, stubB, stubC], "overview", ["quiz"]⟩

def samplePipe (u : UnitStub) : Option String :=
  if u.unitTitle == "Unit B" then none else some u.unitTitle

def sampleExceptPipe (u : UnitStub) : Except String String :=
  if u.unitTitle == "Unit B" then Except.error "boom" else Except.ok u.unitTitle

def sampleCourseOut : Course String :=
  ⟨"Algebra Course", "easy", "desc", ["arithmetic"], ["solve equations"],
    ["Unit A", "Unit C"], "overview", ["quiz"]⟩

/-! ## JSON values

`json.loads` output is embedded as `PyVal`; objects keep key order, as
Python dicts do.  `dictGet` is `dict.get(key, default)` (the default fires
only on a missing key — a key mapped to JSON `null` is returned as is);
`dictSet` is `d[key] = v` (replace in place, else append). -/

inductive PyVal where
  | null
  | bool (b : Bool)
  | num (q : ℚ)
  | str (s : String)
  | arr (elems : List PyVal)
  | obj (fields : List (String × PyVal))

def PyVal.isNull : PyVal → Bool
  | PyVal.null => true
  | _ => false

def dictGet (fields : List (String × PyVal)) (key : String)
    (default : PyVal) : PyVal :=
  match fields.lookup key with
  | some v => v
  | none => default

def dictSet (fields : List (String × PyVal)) (key : String) (v : PyVal) :
    List (String × PyVal) :=
  if (fields.lookup key).isSome then
    fields.map (fun p => if p.1 == key then (key, v) else p)
  else fields ++ [(key, v)]

/-! ## MCQ-variant unit pipeline (main.py 176-249)

`get_unit_details_with_mcqs` parses the minimal unit skeleton, calls
`generate_mcqs` (whose reply is cleaned and `json.loads`-ed with no shape
check of any kind), and stores the parsed value under `"assessment"`.
The two model-reply parse outcomes are oracle parameters; an error value
stands for the `HTTPException(500, "Failed to generate ... for {title}")`
the source raises, whose payload none of the claims depend on.  If the
parsed unit skeleton is not a dict, the item assignment raises a
`TypeError`, caught by the same handler. -/

def get_unit_details_with_mcqs (unitParsed mcqParsed : Except String PyVal) :
    Except String PyVal :=
  match unitParsed with
  | Except.error e => Except.error e
  | Except.ok u =>
    match mcqParsed with
    | Except.error e => Except.error e
    | Except.ok m =>
      match u with
      | PyVal.obj fields => Except.ok (PyVal.obj (dictSet fields "assessment" m))
      | _ => Except.error "TypeError: item assignment on non-dict unit"

/-- Modelled from the spec: the assessment shape claim C8 says the system
guarantees — exactly 3 topics under `unitAssessment`, each with at least 3
questions, each question with exactly 4 options, a `correctAnswer` and an
`explanation`.  The source never evaluates anything like this; the
predicate exists only to compare the attached value against the claim. -/
def mcqShapeSpec : PyVal → Bool
  | PyVal.obj fields =>
    (match fields.lookup "unitAssessment" with
     | some (PyVal.arr topics) =>
       topics.length == 3 && topics.all fun t =>
         match t with
         | PyVal.obj tf =>
           (match tf.lookup "questions" with
            | some (PyVal.arr qs) =>
              decide (3 ≤ qs.length) && qs.all fun q =>
                match q with
                | PyVal.obj qf =>
                  (match qf.lookup "options" with
                   | some (PyVal.arr os) => os.length == 4
                   | _ => false) &&
                  (qf.lookup "correctAnswer").isSome &&
                  (qf.lookup "explanation").isSome
                | _ => false
            | _ => false)
         | _ => false
     | _ => false)
  | _ => false

def badAssessment : PyVal := PyVal.obj [("unitAssessment", PyVal.arr [])]

def sampleUnitFields : List (String × PyVal) := [("unitTitle", PyVal.str "Unit A")]

def badUnit : PyVal :=
  PyVal.obj [("unitTitle", PyVal.str "Unit A"), ("assessment", badAssessment)]

/-! ## Document endpoint (main.py 469-529)

Oracles: the HTTP status of the file download, the text the parsing
library extracts for the matched supported format (or the message of the
exception it raises), and the `json.loads` outcome of the stripped model
reply.  Everything else — basename, extension dispatch, the emptiness
check, the `.get` defaulting, and crucially the error flow — is the
source's own logic.  FastAPI's `HTTPException` subclasses `Exception`, so
the blanket `except Exception as e: raise HTTPException(500, str(e))` at
main.py 528-529 also catches the endpoint's own `HTTPException(400, ...)`
values; `str` of an `HTTPException` is `"{status_code}: {detail}"`. -/

inductive PyExc where
  | http (e : HTTPExc)
  | other (msg : String)

def strOfExc : PyExc → String
  | PyExc.http e => toString e.status ++ ": " ++ e.detail
  | PyExc.other m => m

/-- Python `str.split(sep)` for a single-character separator. -/
def splitOnChar (sep : Char) : List Char → List (List Char)
  | [] => [[]]
  | c :: cs =>
    match splitOnChar sep cs with
    | [] => [[]]
    | r :: rs => if c == sep then [] :: r :: rs else (c :: r) :: rs

/-- `os.path.basename` on a POSIX path / URL: the part after the last `/`. -/
def basename (url : String) : String :=
  String.mk ((splitOnChar '/' url.data).getLastD [])

/-- `filename.split(".")[-1].lower()` (main.py 478). -/
def fileExtension (filename : String) : String :=
  String.mk (((splitOnChar '.' filename.data).getLastD []).map Char.toLower)

structure DetectResponse where
  filename : String
  domain : PyVal
  subdomain : PyVal
  explanation : PyVal

/-- The body of the `try` block (main.py 472-526): every failure is raised
as an exception — `HTTPException`s for the endpoint's own policy failures,
plain exceptions for library errors. -/
def detectBody (file_url : String) (downloadStatus : Nat)
    (extracted : Except String String) (parsed : Except Unit PyVal) :
    Except PyExc DetectResponse :=
  if downloadStatus ≠ 200 then
    Except.error (PyExc.http ⟨400, "Failed to download file."⟩)
  else
    if fileExtension (basename file_url) == "docx" ||
        fileExtension (basename file_url) == "pdf" ||
        fileExtension (basename file_url) == "pptx" then
      match extracted with
      | Except.error msg => Except.error (PyExc.other msg)
      | Except.ok content =>
        if pyStrip content == "" then
          Except.error (PyExc.http ⟨400, "Extracted content is empty."⟩)
        else
          match parsed with
          | Except.error _ =>
            Except.error
              (PyExc.http ⟨500, "Gemini response is not in valid JSON format."⟩)
          | Except.ok (PyVal.obj fields) =>
            Except.ok ⟨basename file_url,
              dictGet fields "domain" (PyVal.str "Unknown"),
              dictGet fields "subdomain" (PyVal.str "Unknown"),
              dictGet fields "explanation" (PyVal.str "No explanation provided.")⟩
          | Except.ok _ =>
            Except.error (PyExc.other "AttributeError: result has no attribute get")
    else Except.error (PyExc.http ⟨400, "Unsupported file type."⟩)

/-- The whole handler: the `except Exception` wrapper re-raises every
exception — the endpoint's own 400s included — as a 500 whose detail is
`str(e)`. -/
def detect_domain_from_file (file_url : String) (downloadStatus : Nat)
    (extracted : Except String String) (parsed : Except Unit PyVal) :
    Except HTTPExc DetectResponse :=
  match detectBody file_url downloadStatus extracted parsed with
  | Except.ok r => Except.ok r
  | Except.error e => Except.error ⟨500, strOfExc e⟩

def sampleDetectFields : List (String × PyVal) := [("domain", PyVal.str "Math")]

def sampleDetectOut : DetectResponse :=
  ⟨"doc.pdf", PyVal.str "Math", PyVal.str "Unknown",
    PyVal.str "No explanation provided."⟩

def nullDomainOut : DetectResponse :=
  ⟨"doc.pdf", PyVal.null, PyVal.str "Unknown",
    PyVal.str "No explanation provided."⟩

end FullCourseGen

namespace FullCourseGen

/-- Helper: mapping `some` over a `filterMap` result gives an
order-preserving sublist of mapping the partial function itself. -/
theorem map_some_filterMap_sublist {α β : Type} (f : α → Option β) :
    ∀ l : List α, List.Sublist ((l.filterMap f).map some) (l.map f)
  | [] => by simp
  | a :: l => by
    cases h : f a with
    | none =>
      rw [List.map_cons, List.filterMap_cons_none h, h]
      exact List.Sublist.cons none (map_some_filterMap_sublist f l)
    | some b =>
      rw [List.map_cons, List.filterMap_cons_some h, List.map_cons, h]
      exact List.Sublist.cons₂ (some b) (map_some_filterMap_sublist f l)

/-- Claim C1: `predict_user_level` is pure and total; score ≥ 7 with
time ≤ 80 gives Advanced, 4 ≤ score < 7 gives Intermediate regardless of
time, and otherwise (score < 4, or score ≥ 7 taken slowly) Beginner; the
boundary (7, 80) is Advanced and time 80.0001 with score ≥ 7 is Beginner. -/
theorem predict_user_level_spec (score time_taken : ℚ) :
    (7 ≤ score → time_taken ≤ 80 →
      predict_user_level score time_taken = UserLevel.Advanced) ∧
    (4 ≤ score → score < 7 →
      predict_user_level score time_taken = UserLevel.Intermediate) ∧
    (score < 4 ∨ (7 ≤ score ∧ 80 < time_taken) →
      predict_user_level score time_taken = UserLevel.Beginner) ∧
    predict_user_level 7 80 = UserLevel.Advanced ∧
    (7 ≤ score → predict_user_level score 80.0001 = UserLevel.Beginner) := by
  refine ⟨?_, ?_, ?_, by decide, ?_⟩
  · intro h1 h2
    unfold predict_user_level
    rw [if_pos ⟨h1, h2⟩]
  · intro h1 h2
    unfold predict_user_level
    rw [if_neg (by rintro ⟨h7, -⟩; linarith), if_pos ⟨h1, h2⟩]
  · intro h
    unfold predict_user_level
    rcases h with h | ⟨h7, ht⟩
    · rw [if_neg (by rintro ⟨h7, -⟩; linarith),
        if_neg (by rintro ⟨h4, -⟩; linarith)]
    · rw [if_neg (by rintro ⟨-, h80⟩; linarith),
        if_neg (by rintro ⟨-, hlt⟩; linarith)]
  · intro h7
    unfold predict_user_level
    rw [if_neg (by rintro ⟨-, hx⟩; norm_num at hx),
      if_neg (by rintro ⟨-, hlt⟩; linarith)]

theorem predict_user_level_spec_witness :
    predict_user_level 8 50 = UserLevel.Advanced ∧
    predict_user_level 5 200 = UserLevel.Intermediate ∧
    predict_user_level 8 200 = UserLevel.Beginner ∧
    predict_user_level 8 80.0001 = UserLevel.Beginner :=
  ⟨(predict_user_level_spec 8 50).1 (by decide) (by decide),
   (predict_user_level_spec 5 200).2.1 (by decide) (by decide),
   (predict_user_level_spec 8 200).2.2.1 (Or.inr ⟨by decide, by decide⟩),
   (predict_user_level_spec 8 0).2.2.2.2 (by decide)⟩

/-- Claim C2 counterexample: the repair is not idempotent.  On the input of
a fence followed by a space, the fence is not at a line end, so the regex
leaves it and only the final strip removes the space — re-applying then
removes the now-exposed fence. -/
theorem clean_model_reply_not_idempotent :
    clean_model_reply (clean_model_reply "``` ") ≠ clean_model_reply "``` " := by
  decide

/-- Claim C2 (amended): on the spec's example the repair yields the JSON
payload, and that payload is a fixed point of both repair variants;
idempotence does not hold for arbitrary inputs. -/
theorem clean_model_reply_example :
    clean_model_reply jsonFenceExample = jsonPayload ∧
    clean_model_reply jsonPayload = jsonPayload ∧
    strip_markers jsonPayload = jsonPayload := by
  refine ⟨by decide, by decide, by decide⟩

/-- Claim C4: the video lookup is total over every simulated transport
outcome, with the exact sentinel strings of the source, and on success with
at least one item it returns the watch URL built from the first video id. -/
theorem fetch_youtube_video_total (query : String) (o : Transport) :
    (o = Transport.timeout →
      fetch_youtube_video query o = "YouTube fetch timeout.") ∧
    (o = Transport.failure →
      fetch_youtube_video query o = "Error fetching video.") ∧
    (o = Transport.success [] →
      fetch_youtube_video query o = "No relevant video found.") ∧
    (∀ vid rest, o = Transport.success (vid :: rest) →
      fetch_youtube_video query o = "https://www.youtube.com/watch?v=" ++ vid) := by
  refine ⟨?_, ?_, ?_, ?_⟩
  · rintro rfl; rfl
  · rintro rfl; rfl
  · rintro rfl; rfl
  · rintro vid rest rfl; rfl

theorem fetch_youtube_video_total_witness :
    fetch_youtube_video "lean tutorial" Transport.timeout = "YouTube fetch timeout." ∧
    fetch_youtube_video "lean tutorial" (Transport.success ["abc123"]) =
      "https://www.youtube.com/watch?v=abc123" :=
  ⟨(fetch_youtube_video_total "lean tutorial" Transport.timeout).1 rfl,
   (fetch_youtube_video_total "lean tutorial"
      (Transport.success ["abc123"])).2.2.2 "abc123" [] rfl⟩

/-- Claim C3: for a skeleton with `n` units, the full-detail endpoint either
returns a course with between 1 and `n` units (per-unit failures remove
units, never add any), or fails with the 500 "no unit details" error, and
the latter happens exactly when every unit's pipeline fails. -/
theorem generate_course_partial_failure {β : Type} (s : Course UnitStub)
    (p : UnitStub → Option β) (n : Nat) (hn : s.units.length = n) :
    (∀ c, generate_course s p = Except.ok c →
      1 ≤ c.units.length ∧ c.units.length ≤ n) ∧
    (generate_course s p = Except.error courseFailure ↔
      ∀ u ∈ s.units, p u = none) := by
  subst hn
  unfold generate_course
  by_cases h : (s.units.filterMap p).isEmpty
  · refine ⟨fun c hc => by simp [h] at hc, ?_⟩
    simp only [h, if_pos]
    simpa [List.filterMap_eq_nil_iff] using List.isEmpty_iff.mp h
  · refine ⟨fun c hc => ?_, ?_⟩
    · simp only [h, Bool.false_eq_true, if_false, Except.ok.injEq] at hc
      subst hc
      refine ⟨?_, List.length_filterMap_le p s.units⟩
      have hne : s.units.filterMap p ≠ [] := fun hnil =>
        (by simp [h] : ¬ (s.units.filterMap p).isEmpty = true)
          (List.isEmpty_iff.mpr hnil)
      exact Nat.one_le_iff_ne_zero.mpr
        (fun hlen => hne (List.length_eq_zero.mp hlen))
    · simp only [h, Bool.false_eq_true, if_false]
      constructor
      · intro hco
        cases hco
      · intro hall
        exact absurd (List.isEmpty_iff.mpr (List.filterMap_eq_nil_iff.mpr hall))
          (by simp [h])

theorem generate_course_partial_failure_witness :
    1 ≤ sampleCourseOut.units.length ∧ sampleCourseOut.units.length ≤ 3 :=
  (generate_course_partial_failure skeleton3 samplePipe 3 rfl).1
    sampleCourseOut rfl

/-- Claim C6: in the concurrent MCQ endpoint, the per-unit outcomes are
joined as a batch and failed units are filtered out: the request fails
(with the 500 error) exactly when every unit's pipeline fails; on success
each surviving unit is the value of its own pipeline, so one unit's failure
never affects a sibling; and the result depends only on each unit's own
success value, not on the exceptions of failed siblings. -/
theorem generate_question_failure_isolation {ε β : Type} (s : Course UnitStub)
    (p : UnitStub → Except ε β) :
    (generate_question s p = Except.error courseFailure ↔
      ∀ u ∈ s.units, (p u).toOption = none) ∧
    (∀ c, generate_question s p = Except.ok c →
      c.units = s.units.filterMap (fun u => (p u).toOption)) ∧
    (∀ q : UnitStub → Except ε β, (∀ u, (p u).toOption = (q u).toOption) →
      generate_question s p = generate_question s q) := by
  unfold generate_question
  rw [List.filterMap_map]
  refine ⟨?_, ?_, ?_⟩
  · by_cases h : (s.units.filterMap (Except.toOption ∘ p)).isEmpty
    · simp only [h, if_pos]
      simpa [List.filterMap_eq_nil_iff, Function.comp]
        using List.isEmpty_iff.mp h
    · simp only [h, Bool.false_eq_true, if_false]
      constructor
      · intro hco
        cases hco
      · intro hall
        have hnil : s.units.filterMap (Except.toOption ∘ p) = [] :=
          List.filterMap_eq_nil_iff.mpr (fun u hu => hall u hu)
        exact absurd (List.isEmpty_iff.mpr hnil) h
  · intro c hc
    split at hc
    · exact Except.noConfusion hc
    · injection hc with h2
      subst h2
      rfl
  · intro q hq
    rw [List.filterMap_map]
    have hfun : (Except.toOption ∘ p) = (Except.toOption ∘ q) :=
      funext fun u => hq u
    rw [hfun]

theorem generate_question_failure_isolation_witness :
    sampleCourseOut.units =
      skeleton3.units.filterMap (fun u => (sampleExceptPipe u).toOption) :=
  (generate_question_failure_isolation skeleton3 sampleExceptPipe).2.1
    sampleCourseOut rfl

/-- Claim C7: in both course endpoints only `units` is replaced; every other
top-level skeleton field is returned exactly as parsed. -/
theorem course_skeleton_frame {β γ : Type} {ε : Type} (s : Course UnitStub)
    (p : UnitStub → Option β) (p2 : UnitStub → Except ε γ) :
    (∀ c, generate_course s p = Except.ok c →
      c.courseTitle = s.courseTitle ∧ c.difficultyLevel = s.difficultyLevel ∧
      c.description = s.description ∧ c.prerequisites = s.prerequisites ∧
      c.learningOutcomes = s.learningOutcomes ∧ c.overview = s.overview ∧
      c.assessmentMethods = s.assessmentMethods) ∧
    (∀ c, generate_question s p2 = Except.ok c →
      c.courseTitle = s.courseTitle ∧ c.difficultyLevel = s.difficultyLevel ∧
      c.description = s.description ∧ c.prerequisites = s.prerequisites ∧
      c.learningOutcomes = s.learningOutcomes ∧ c.overview = s.overview ∧
      c.assessmentMethods = s.assessmentMethods) := by
  constructor
  · intro c hc
    unfold generate_course at hc
    split at hc
    · exact Except.noConfusion hc
    · injection hc with h2
      subst h2
      exact ⟨rfl, rfl, rfl, rfl, rfl, rfl, rfl⟩
  · intro c hc
    unfold generate_question at hc
    split at hc
    · exact Except.noConfusion hc
    · injection hc with h2
      subst h2
      exact ⟨rfl, rfl, rfl, rfl, rfl, rfl, rfl⟩

theorem course_skeleton_frame_witness :
    (sampleCourseOut.courseTitle = skeleton3.courseTitle ∧
      sampleCourseOut.difficultyLevel = skeleton3.difficultyLevel ∧
      sampleCourseOut.description = skeleton3.description ∧
      sampleCourseOut.prerequisites = skeleton3.prerequisites ∧
      sampleCourseOut.learningOutcomes = skeleton3.learningOutcomes ∧
      sampleCourseOut.overview = skeleton3.overview ∧
      sampleCourseOut.assessmentMethods = skeleton3.assessmentMethods) ∧
    (sampleCourseOut.courseTitle = skeleton3.courseTitle ∧
      sampleCourseOut.difficultyLevel = skeleton3.difficultyLevel ∧
      sampleCourseOut.description = skeleton3.description ∧
      sampleCourseOut.prerequisites = skeleton3.prerequisites ∧
      sampleCourseOut.learningOutcomes = skeleton3.learningOutcomes ∧
      sampleCourseOut.overview = skeleton3.overview ∧
      sampleCourseOut.assessmentMethods = skeleton3.assessmentMethods) :=
  ⟨(course_skeleton_frame skeleton3 samplePipe sampleExceptPipe).1
      sampleCourseOut rfl,
   (course_skeleton_frame skeleton3 samplePipe sampleExceptPipe).2
      sampleCourseOut rfl⟩

/-- Claim C9 (implicit): the batch join of the concurrent endpoint is
position-preserving — mapping `some` over the returned units is an
order-preserving sublist of the per-stub outcome sequence, so surviving
units appear in the same relative order as their stubs in the skeleton. -/
theorem generate_question_order_preserving {ε β : Type} (s : Course UnitStub)
    (p : UnitStub → Except ε β) :
    ∀ c, generate_question s p = Except.ok c →
      List.Sublist (c.units.map some)
        (s.units.map (fun u => (p u).toOption)) ∧
      c.units.length ≤ s.units.length := by
  intro c hc
  unfold generate_question at hc
  rw [List.filterMap_map] at hc
  split at hc
  · exact Except.noConfusion hc
  · injection hc with h2
    subst h2
    refine ⟨?_, List.length_filterMap_le _ s.units⟩
    exact map_some_filterMap_sublist (Except.toOption ∘ p) s.units

theorem generate_question_order_preserving_witness :
    List.Sublist (sampleCourseOut.units.map some)
      (skeleton3.units.map (fun u => (sampleExceptPipe u).toOption)) ∧
    sampleCourseOut.units.length ≤ skeleton3.units.length :=
  generate_question_order_preserving skeleton3 sampleExceptPipe
    sampleCourseOut rfl

/-- Claim C5: the endpoint's own `HTTPException(400, "Unsupported file
type.")` and `HTTPException(400, "Extracted content is empty.")` are caught
by the handler's blanket `except Exception` and re-raised as 500, so the
client sees HTTP 500 (with the former 400 only inside the detail string) —
the claimed 400s, and their distinguishability from the 500 failures, never
reach the HTTP client.  The `.txt` outcome is independent of the extraction
and parse oracles, which the unsupported branch never consults. -/
theorem detect_domain_unsupported_is_500 (extracted : Except String String)
    (parsed : Except Unit PyVal) :
    detect_domain_from_file "http://host/notes.txt" 200 extracted parsed =
      Except.error ⟨500, "400: Unsupported file type."⟩ ∧
    detect_domain_from_file "http://host/slides.pdf" 200
        (Except.ok "  \n ") parsed =
      Except.error ⟨500, "400: Extracted content is empty."⟩ ∧
    detectBody "http://host/notes.txt" 200 extracted parsed =
      Except.error (PyExc.http ⟨400, "Unsupported file type."⟩) :=
  ⟨rfl, rfl, rfl⟩

/-- Claim C8 counterexample: an assessment with zero topics (hence not of
the claimed 3-topic / ≥3-question / 4-option shape) is attached unchanged
by the MCQ pipeline and returned at the endpoint — the system does not
enforce the shape. -/
theorem mcq_shape_not_enforced :
    mcqShapeSpec badAssessment = false ∧
    get_unit_details_with_mcqs (Except.ok (PyVal.obj sampleUnitFields))
        (Except.ok badAssessment) = Except.ok badUnit ∧
    generate_question skeleton3
        (fun _ => get_unit_details_with_mcqs
          (Except.ok (PyVal.obj sampleUnitFields)) (Except.ok badAssessment)) =
      Except.ok ⟨"Algebra Course", "easy", "desc", ["arithmetic"],
        ["solve equations"], [badUnit, badUnit, badUnit], "overview", ["quiz"]⟩ :=
  ⟨rfl, rfl, rfl⟩

/-- Claim C8 (amended): the 3-topic / ≥3-question / 4-option shape is only
requested in the prompt; the system attaches whatever the model reply
parsed to under `"assessment"`, unchanged and unvalidated. -/
theorem mcq_attach_unvalidated (fields : List (String × PyVal)) (m : PyVal) :
    get_unit_details_with_mcqs (Except.ok (PyVal.obj fields)) (Except.ok m) =
      Except.ok (PyVal.obj (dictSet fields "assessment" m)) :=
  rfl

/-- Helper: the `except Exception` wrapper changes no success value, so the
handler returns `ok` exactly when the `try` body does. -/
theorem detect_wrap_ok (u : String) (d : Nat) (ex : Except String String)
    (pv : Except Unit PyVal) (r : DetectResponse) :
    detect_domain_from_file u d ex pv = Except.ok r ↔
      detectBody u d ex pv = Except.ok r := by
  unfold detect_domain_from_file
  cases detectBody u d ex pv with
  | ok x => simp
  | error e => simp

/-- Claim C10 (amended): on the success path the response always carries
all four fields — a missing `domain`/`subdomain` key defaults to
`"Unknown"` and a missing `explanation` key to `"No explanation
provided."`, so no field is ever absent; but a key present in the parsed
object is passed through unchanged, JSON `null` included, so a field can
still be null. -/
theorem detect_domain_defaults (file_url : String)
    (extracted : Except String String) (fields : List (String × PyVal))
    (r : DetectResponse)
    (hr : detect_domain_from_file file_url 200 extracted
      (Except.ok (PyVal.obj fields)) = Except.ok r) :
    (fields.lookup "domain" = none → r.domain = PyVal.str "Unknown") ∧
    (fields.lookup "subdomain" = none → r.subdomain = PyVal.str "Unknown") ∧
    (fields.lookup "explanation" = none →
      r.explanation = PyVal.str "No explanation provided.") ∧
    (∀ v, fields.lookup "domain" = some v → r.domain = v) ∧
    (∀ v, fields.lookup "subdomain" = some v → r.subdomain = v) ∧
    (∀ v, fields.lookup "explanation" = some v → r.explanation = v) ∧
    r.filename = basename file_url := by
  rw [detect_wrap_ok] at hr
  unfold detectBody at hr
  split at hr
  · exact Except.noConfusion hr
  · split at hr
    · split at hr
      · exact Except.noConfusion hr
      · split at hr
        · exact Except.noConfusion hr
        · injection hr with h2
          subst h2
          refine ⟨fun h => ?_, fun h => ?_, fun h => ?_,
            fun v h => ?_, fun v h => ?_, fun v h => ?_, rfl⟩ <;>
            simp [dictGet, h]
    · exact Except.noConfusion hr

theorem detect_domain_defaults_witness :
    sampleDetectOut.subdomain = PyVal.str "Unknown" ∧
    sampleDetectOut.domain = PyVal.str "Math" :=
  ⟨(detect_domain_defaults "http://host/doc.pdf" (Except.ok "content")
      sampleDetectFields sampleDetectOut rfl).2.1 rfl,
   (detect_domain_defaults "http://host/doc.pdf" (Except.ok "content")
      sampleDetectFields sampleDetectOut rfl).2.2.2.1 (PyVal.str "Math") rfl⟩

/-- Claim C10 counterexample: a parsed reply whose `domain` key is an
explicit JSON `null` reaches the success response as `null` — `dict.get`
defaults only fire on a missing key, so a field can be null. -/
theorem detect_domain_null_passthrough :
    detect_domain_from_file "http://host/doc.pdf" 200 (Except.ok "content")
        (Except.ok (PyVal.obj [("domain", PyVal.null)])) =
      Except.ok nullDomainOut ∧
    nullDomainOut.domain.isNull = true :=
  ⟨rfl, rfl⟩

end FullCourseGen
